import Mathlib

/-!
Shallow embedding of the stock-summary synchronization and query engine of
`controllers/dateTimeController.js` (the `createOrUpdateStockSummary`,
`getStockSummary`, `updateVoucherStatus`, `updateOverdueStatus` handlers and
the `extractLoanDataFromDayBooks` helper).

Modelling conventions:
* JavaScript `Date` values are modelled as `Int` milliseconds since the epoch
  (the JS code only subtracts and compares dates, which the `Int` model
  captures; calendar-day addition `setDate(getDate()+1)` becomes `+ dayMs`
  in this timezone-free model).
* `setMonth(getMonth() + 12)` (calendar arithmetic) is kept abstract as a
  function parameter `addTwelveMonths : Int → Int`.
* Possibly-absent JS fields are `Option`; JS truthiness-based defaulting
  (`x || d`, where `0`, `""`, `undefined` are falsy) is modelled by the
  `jsOrNum` / `jsOrStr` / `jsOrNumO` / `jsOrStrO` helpers.  Mongo `Date`
  fields are always truthy as JS objects, so date fallbacks
  (`transaction.createdAt || dayBook.date`) use `Option.getD` instead.
* The snapshot collection is a `List Snapshot` kept most-recent-first, so
  `findOne().sort({lastUpdated: -1})` is `List.head?`, `deleteMany({})`
  empties the list and saving a new document yields a singleton list.
* Faults when reading the voucher collection are modelled by the
  `Except Unit (List Voucher)` input (`.error` = the collection is
  unreachable), matching the `try/catch` around the voucher read.
-/

/-- One day in milliseconds: `1000 * 60 * 60 * 24`. -/
def dayMs : Int := 86400000

/-- JS `Math.ceil` of the exact rational `a / b` (for `b > 0`), as used in
`Math.ceil((today - dueDate) / (1000*60*60*24))`. -/
def ceilDiv (a b : Int) : Int := -((-a).fdiv b)

/-- JS `a || d` for a possibly-absent number `a`: `0` and `undefined` are
falsy, so both fall back to the default. -/
def jsOrNum (a : Option Int) (d : Int) : Int :=
  match a with
  | some v => if v = 0 then d else v
  | none => d

/-- JS `a || b` for a possibly-absent number `a` whose fallback `b` is itself
possibly absent (as in `voucher.balanceAmount || voucher.overallLoanAmount`). -/
def jsOrNumO (a b : Option Int) : Option Int :=
  match a with
  | some v => if v = 0 then b else some v
  | none => b

/-- JS `a || d` for a possibly-absent string `a`: `""` and `undefined` are
falsy, so both fall back to the default. -/
def jsOrStr (a : Option String) (d : String) : String :=
  match a with
  | some s => if s = "" then d else s
  | none => d

/-- JS `a || b` for possibly-absent strings where the fallback may also be
absent (as in `loan._id || loan.voucherId`). -/
def jsOrStrO (a b : Option String) : Option String :=
  match a with
  | some s => if s = "" then b else some s
  | none => b

/-- JS truthiness of a possibly-absent string (`undefined` and `""` are falsy). -/
def jsTruthyS (a : Option String) : Bool :=
  match a with
  | some s => s ≠ ""
  | none => false

/-- JS `String.prototype.toLowerCase`. -/
def lowerStr (s : String) : String := String.mk (s.toList.map Char.toLower)

/-- Holds when `needle` is a leading segment of `hay` (helper for substring search). -/
def strStarts (hay needle : List Char) : Bool :=
  match hay, needle with
  | _, [] => true
  | [], _ :: _ => false
  | a :: as, b :: bs => a = b && strStarts as bs

/-- Holds when `needle` occurs contiguously somewhere in `hay`. -/
def strContainsList (needle : List Char) : List Char → Bool
  | [] => needle.isEmpty
  | c :: cs => strStarts (c :: cs) needle || strContainsList needle cs

/-- JS `hay.includes(sub)`: substring containment. -/
def strIncludes (hay sub : String) : Bool := strContainsList sub.toList hay.toList

/-- The populated `customer` reference of a voucher
(`populate('customer', 'fullName phoneNumber address email customerId')`). -/
structure CustomerRef where
  _id : String
  fullName : Option String
  phoneNumber : Option String
  address : Option String
deriving DecidableEq

/-- A document of the `Voucher` collection, with the fields the controller
reads.  Numeric and string fields may be absent (`Option`). -/
structure Voucher where
  _id : String
  billNo : Option String
  customer : Option CustomerRef
  customerId : Option String
  customerName : Option String
  customerPhone : Option String
  jewelType : Option String
  grossWeight : Option Int
  netWeight : Option Int
  loanAmount : Option Int
  finalLoanAmount : Option Int
  interestRate : Option Int
  interestAmount : Option Int
  overallLoanAmount : Option Int
  repaidAmount : Option Int
  balanceAmount : Option Int
  paymentProgress : Option Int
  monthsPaid : Option Int
  totalInterestPaid : Option Int
  disbursementDate : Option Int
  dueDate : Option Int
  lastPaymentDate : Option Int
  closedDate : Option Int
  status : String
  jewelryItems : Option (List String)
deriving DecidableEq

/-- The denormalized loan record stored in the stock-summary snapshot.
`internalId` models the Mongo subdocument `_id` (absent until assigned by the
store); `jewelryItems` entries are opaque. -/
structure DerivedLoan where
  internalId : Option String := none
  billNo : Option String
  customerId : String
  customerName : String
  customerPhone : String
  customerAddress : String
  jewelType : String
  grossWeight : Int
  netWeight : Int
  loanAmount : Int
  finalLoanAmount : Int
  interestRate : Int
  interestAmount : Int
  overallLoanAmount : Int
  disbursementDate : Option Int
  dueDate : Option Int
  status : String
  loanStatus : String
  repaidAmount : Int
  balanceAmount : Option Int
  paymentProgress : Int
  daysOverdue : Int
  lastPaymentDate : Option Int := none
  monthsPaid : Option Int := none
  totalInterestPaid : Option Int := none
  closedDate : Option Int := none
  voucherId : Option String
  sourceType : String
  sourceId : String
  jewelryItems : List String := []
deriving DecidableEq

/-- The check `dueDate < today && !['Closed'].includes(voucher.status)` — an absent
`dueDate` gives an Invalid Date, whose comparisons are all false. -/
def vIsOverdue (today : Int) (v : Voucher) : Bool :=
  (match v.dueDate with
   | some d => decide (d < today)
   | none => false) && v.status ≠ "Closed"

/-- The expression `isOverdue ? Math.ceil((today - dueDate) / (1000*60*60*24)) : 0`. -/
def vDaysOverdue (today : Int) (v : Voucher) : Int :=
  if vIsOverdue today v then ceilDiv (today - v.dueDate.getD 0) dayMs else 0

/-- The cascaded conditional computing `loanStatus` for a voucher. -/
def vLoanStatus (today : Int) (v : Voucher) : String :=
  if vIsOverdue today v then "overdue"
  else if v.status = "Closed" then "closed"
  else if v.status = "Active" ∨ v.status = "Partial" then "active"
  else "inactive"

/-- The per-voucher mapping of `createOrUpdateStockSummary`
(lines 195–234 of `dateTimeController.js`). -/
def voucherToLoan (today : Int) (v : Voucher) : DerivedLoan :=
  { billNo := v.billNo
    customerId := jsOrStr (v.customer.map CustomerRef._id) (jsOrStr v.customerId "unknown")
    customerName := jsOrStr (v.customer.bind CustomerRef.fullName) (jsOrStr v.customerName "Unknown Customer")
    customerPhone := jsOrStr (v.customer.bind CustomerRef.phoneNumber) (jsOrStr v.customerPhone "N/A")
    customerAddress := jsOrStr (v.customer.bind CustomerRef.address) "N/A"
    jewelType := jsOrStr v.jewelType "gold"
    grossWeight := jsOrNum v.grossWeight 0
    netWeight := jsOrNum v.netWeight 0
    loanAmount := jsOrNum v.loanAmount 0
    finalLoanAmount := jsOrNum v.finalLoanAmount 0
    interestRate := jsOrNum v.interestRate 0
    interestAmount := jsOrNum v.interestAmount 0
    overallLoanAmount := jsOrNum v.overallLoanAmount 0
    disbursementDate := v.disbursementDate
    dueDate := v.dueDate
    status := v.status
    loanStatus := vLoanStatus today v
    repaidAmount := jsOrNum v.repaidAmount 0
    balanceAmount := jsOrNumO v.balanceAmount v.overallLoanAmount
    paymentProgress := jsOrNum v.paymentProgress 0
    daysOverdue := vDaysOverdue today v
    lastPaymentDate := v.lastPaymentDate
    monthsPaid := some (jsOrNum v.monthsPaid 0)
    totalInterestPaid := some (jsOrNum v.totalInterestPaid 0)
    closedDate := v.closedDate
    voucherId := some v._id
    sourceType := "voucher"
    sourceId := v._id
    jewelryItems := v.jewelryItems.getD [] }

/-- The per-voucher mapping used by the lazy sync inside `getStockSummary`
(lines 324–359): identical to `voucherToLoan` except that `lastPaymentDate`,
`monthsPaid`, `totalInterestPaid` and `closedDate` are not populated. -/
def voucherToLoanLazy (today : Int) (v : Voucher) : DerivedLoan :=
  { billNo := v.billNo
    customerId := jsOrStr (v.customer.map CustomerRef._id) (jsOrStr v.customerId "unknown")
    customerName := jsOrStr (v.customer.bind CustomerRef.fullName) (jsOrStr v.customerName "Unknown Customer")
    customerPhone := jsOrStr (v.customer.bind CustomerRef.phoneNumber) (jsOrStr v.customerPhone "N/A")
    customerAddress := jsOrStr (v.customer.bind CustomerRef.address) "N/A"
    jewelType := jsOrStr v.jewelType "gold"
    grossWeight := jsOrNum v.grossWeight 0
    netWeight := jsOrNum v.netWeight 0
    loanAmount := jsOrNum v.loanAmount 0
    finalLoanAmount := jsOrNum v.finalLoanAmount 0
    interestRate := jsOrNum v.interestRate 0
    interestAmount := jsOrNum v.interestAmount 0
    overallLoanAmount := jsOrNum v.overallLoanAmount 0
    disbursementDate := v.disbursementDate
    dueDate := v.dueDate
    status := v.status
    loanStatus := vLoanStatus today v
    repaidAmount := jsOrNum v.repaidAmount 0
    balanceAmount := jsOrNumO v.balanceAmount v.overallLoanAmount
    paymentProgress := jsOrNum v.paymentProgress 0
    daysOverdue := vDaysOverdue today v
    voucherId := some v._id
    sourceType := "voucher"
    sourceId := v._id
    jewelryItems := v.jewelryItems.getD [] }

/-- An embedded transaction of a day-book document (under `loansDisbursed`
or `closedLoans`). -/
structure Tx where
  voucherId : Option String
  billNo : Option String
  customerId : Option String
  customerName : Option String
  jewelType : Option String
  netWeight : Option Int
  amount : Option Int
  interestRate : Option Int
  createdAt : Option Int
deriving DecidableEq

/-- A document of the `DayBook` collection.  A `none` transaction list covers
both a missing section and a section with no `transactions` array (the code
guards `dayBook.loansDisbursed && dayBook.loansDisbursed.transactions`). -/
structure DayBook where
  _id : String
  date : Int
  loansDisbursed : Option (List Tx)
  closedLoans : Option (List Tx)
deriving DecidableEq

/-- The guard `transaction.voucherId && transaction.billNo`: a transaction qualifies
only when both are present (and non-empty, by JS truthiness). -/
def qualifiesTx (t : Tx) : Bool := jsTruthyS t.voucherId && jsTruthyS t.billNo

/-- The record pushed for a qualifying `loansDisbursed` transaction
(lines 86–122).  `addTwelveMonths` abstracts `setMonth(getMonth() + 12)`. -/
def disbLoanOfTx (today : Int) (addTwelveMonths : Int → Int) (db : DayBook) (t : Tx) : DerivedLoan :=
  let disbursementDate : Int := t.createdAt.getD db.date
  let dueDate : Int := addTwelveMonths disbursementDate
  let isOverdue : Bool := decide (dueDate < today)
  let daysOverdue : Int := if isOverdue then ceilDiv (today - dueDate) dayMs else 0
  { billNo := t.billNo
    customerId := jsOrStr t.customerId "unknown"
    customerName := jsOrStr t.customerName "Unknown Customer"
    customerPhone := "N/A"
    customerAddress := "N/A"
    jewelType := jsOrStr t.jewelType "gold"
    grossWeight := jsOrNum t.netWeight 0
    netWeight := jsOrNum t.netWeight 0
    loanAmount := jsOrNum t.amount 0
    finalLoanAmount := jsOrNum t.amount 0
    interestRate := jsOrNum t.interestRate 0
    interestAmount := 0
    overallLoanAmount := jsOrNum t.amount 0
    disbursementDate := some disbursementDate
    dueDate := some dueDate
    status := if isOverdue then "Overdue" else "Active"
    loanStatus := if isOverdue then "overdue" else "active"
    repaidAmount := 0
    balanceAmount := some (jsOrNum t.amount 0)
    paymentProgress := 0
    daysOverdue := daysOverdue
    voucherId := t.voucherId
    sourceType := "daybook"
    sourceId := db._id
    jewelryItems := [] }

/-- The record pushed for a qualifying `closedLoans` transaction
(lines 129–162). -/
def closedLoanOfTx (today : Int) (addTwelveMonths : Int → Int) (db : DayBook) (t : Tx) : DerivedLoan :=
  let disbursementDate : Int := t.createdAt.getD db.date
  let dueDate : Int := addTwelveMonths disbursementDate
  { billNo := t.billNo
    customerId := jsOrStr t.customerId "unknown"
    customerName := jsOrStr t.customerName "Unknown Customer"
    customerPhone := "N/A"
    customerAddress := "N/A"
    jewelType := jsOrStr t.jewelType "gold"
    grossWeight := jsOrNum t.netWeight 0
    netWeight := jsOrNum t.netWeight 0
    loanAmount := jsOrNum t.amount 0
    finalLoanAmount := jsOrNum t.amount 0
    interestRate := jsOrNum t.interestRate 0
    interestAmount := 0
    overallLoanAmount := jsOrNum t.amount 0
    disbursementDate := some disbursementDate
    dueDate := some dueDate
    status := "Closed"
    loanStatus := "closed"
    repaidAmount := jsOrNum t.amount 0
    balanceAmount := some 0
    paymentProgress := 100
    daysOverdue := 0
    closedDate := some db.date
    voucherId := t.voucherId
    sourceType := "daybook"
    sourceId := db._id
    jewelryItems := [] }

/-- The loans a single day-book contributes: its qualifying `loansDisbursed`
transactions followed by its qualifying `closedLoans` transactions, in order. -/
def dayBookLoans (today : Int) (addTwelveMonths : Int → Int) (db : DayBook) : List DerivedLoan :=
  ((db.loansDisbursed.getD []).filter qualifiesTx).map (disbLoanOfTx today addTwelveMonths db)
    ++ ((db.closedLoans.getD []).filter qualifiesTx).map (closedLoanOfTx today addTwelveMonths db)

/-- Function `extractLoanDataFromDayBooks` (lines 71–172): the `forEach`/`push` loop
accumulating each day-book's qualifying transactions into one array. -/
def extractLoanDataFromDayBooks (today : Int) (addTwelveMonths : Int → Int)
    (dayBooks : List DayBook) : List DerivedLoan :=
  dayBooks.foldl (fun acc db => acc ++ dayBookLoans today addTwelveMonths db) []

/-- The persisted stock-summary snapshot document (the fields the controller
sets; the aggregate fields recomputed by the model file are out of scope). -/
structure Snapshot where
  loans : List DerivedLoan
  lastSyncedAt : Int
  syncStatus : String
  dataVersion : String
  lastUpdated : Int
deriving DecidableEq

/-- The loan list `sync()` settles on: the voucher mapping when the voucher
collection is readable and non-empty, otherwise (fault or empty) the
day-book extraction (lines 177–248). -/
def syncedLoans (vres : Except Unit (List Voucher)) (dayBooks : List DayBook)
    (today : Int) (addTwelveMonths : Int → Int) : List DerivedLoan :=
  let loans : List DerivedLoan :=
    match vres with
    | .error _ => []
    | .ok vs => if vs.length > 0 then vs.map (voucherToLoan today) else []
  if loans.length = 0 then extractLoanDataFromDayBooks today addTwelveMonths dayBooks else loans

/-- The success payload of `createOrUpdateStockSummary`. -/
structure SyncResult where
  loanCount : Nat
  dataSource : String
deriving DecidableEq

/-- Handler `createOrUpdateStockSummary` (lines 175–291): pick a source, delete every
existing snapshot (`deleteMany({})`), save exactly one new snapshot and
report the count and source. -/
def createOrUpdateStockSummary (vres : Except Unit (List Voucher)) (dayBooks : List DayBook)
    (today : Int) (addTwelveMonths : Int → Int) (store : List Snapshot) :
    List Snapshot × SyncResult :=
  let loans := syncedLoans vres dayBooks today addTwelveMonths
  let snap : Snapshot :=
    { loans := loans, lastSyncedAt := today, syncStatus := "synced"
      dataVersion := "1.0", lastUpdated := today }
  ([snap],
   { loanCount := loans.length
     dataSource := match loans with
       | [] => "unknown"
       | l :: _ => l.sourceType })

/-- Query-string parameters of `getStockSummary`, with the destructuring
defaults `page = 1`, `limit = 100`. -/
structure QueryParams where
  search : Option String := none
  dateFilter : Option Int := none
  statusFilter : Option String := none
  jewelTypeFilter : Option String := none
  page : Nat := 1
  limit : Nat := 100
deriving DecidableEq

/-- The search predicate (lines 430–435): each field is truthiness-guarded;
bill number, customer name and customer id are compared lower-cased against
the lower-cased search string, the phone number is compared as-is. -/
def searchMatches (search : String) (l : DerivedLoan) : Bool :=
  let searchLower := lowerStr search
  (jsTruthyS l.billNo && strIncludes (lowerStr (l.billNo.getD "")) searchLower)
    || (l.customerName ≠ "" && strIncludes (lowerStr l.customerName) searchLower)
    || (l.customerId ≠ "" && strIncludes (lowerStr l.customerId) searchLower)
    || (l.customerPhone ≠ "" && strIncludes l.customerPhone search)

/-- The date predicate (lines 445–448): the disbursement date lies in
`[filterDate, filterDate + 1 day)`; an absent date is an Invalid Date whose
comparisons are false. -/
def dateMatches (filterDate : Int) (l : DerivedLoan) : Bool :=
  match l.disbursementDate with
  | some d => decide (filterDate ≤ d) && decide (d < filterDate + dayMs)
  | none => false

/-- Stage `if (search) { filteredLoans = filteredLoans.filter(...) }`
(lines 427–437); an absent or empty search string is falsy and skips
the filter. -/
def searchStage (q : QueryParams) (loans : List DerivedLoan) : List DerivedLoan :=
  match q.search with
  | some s => if s = "" then loans else loans.filter (searchMatches s)
  | none => loans

/-- Stage `if (dateFilter) { ... }` (lines 439–450). -/
def dateStage (q : QueryParams) (loans : List DerivedLoan) : List DerivedLoan :=
  match q.dateFilter with
  | some d => loans.filter (dateMatches d)
  | none => loans

/-- Stage `if (statusFilter && statusFilter !== 'all') { ... }`
(lines 452–462); an unrecognized value falls through every branch and
filters nothing. -/
def statusStage (q : QueryParams) (loans : List DerivedLoan) : List DerivedLoan :=
  match q.statusFilter with
  | some sf =>
    if sf = "all" then loans
    else if sf = "active" then loans.filter (fun l => l.loanStatus = "active")
    else if sf = "overdue" then loans.filter (fun l => l.loanStatus = "overdue")
    else if sf = "closed" then loans.filter (fun l => l.loanStatus = "closed")
    else loans
  | none => loans

/-- Stage `if (jewelTypeFilter && jewelTypeFilter !== 'all') { ... }`
(lines 464–468); an absent or empty (falsy) jewel-type filter, or `'all'`,
skips the filter. -/
def jewelStage (q : QueryParams) (loans : List DerivedLoan) : List DerivedLoan :=
  match q.jewelTypeFilter with
  | some jf =>
    if jf = "" then loans
    else if jf = "all" then loans
    else loans.filter (fun l => l.jewelType = jf)
  | none => loans

/-- The sequential filter pipeline of `getStockSummary` (lines 427–468):
each filter applies only when its parameter is truthy (and not `'all'` for
the status and jewel-type filters). -/
def applyFilters (q : QueryParams) (loans : List DerivedLoan) : List DerivedLoan :=
  jewelStage q (statusStage q (dateStage q (searchStage q loans)))

/-- JS `Math.round((num / den) * 100)` for `den > 0`, exactly:
`round(x) = floor(x + 1/2)` on the rational `num * 100 / den`. -/
def jsRoundPct (num : Int) (den : Int) : Int := (200 * num + den).fdiv (2 * den)

/-- The `summary` block of the query response. -/
structure FilteredStats where
  totalLoans : Nat
  activeLoans : Nat
  overdueLoans : Nat
  closedLoans : Nat
  totalActiveLoanAmount : Int
  totalOverdueLoanAmount : Int
  totalLoanAmount : Int
  overdueRate : Int
deriving DecidableEq

/-- The filtered aggregate statistics (lines 478–493). -/
def computeStats (loans : List DerivedLoan) : FilteredStats :=
  { totalLoans := loans.length
    activeLoans := (loans.filter (fun l => l.loanStatus = "active")).length
    overdueLoans := (loans.filter (fun l => l.loanStatus = "overdue")).length
    closedLoans := (loans.filter (fun l => l.loanStatus = "closed")).length
    totalActiveLoanAmount :=
      ((loans.filter (fun l => l.loanStatus = "active")).map DerivedLoan.finalLoanAmount).sum
    totalOverdueLoanAmount :=
      ((loans.filter (fun l => l.loanStatus = "overdue")).map DerivedLoan.finalLoanAmount).sum
    totalLoanAmount := (loans.map DerivedLoan.finalLoanAmount).sum
    overdueRate :=
      if loans.length > 0 then
        jsRoundPct ((loans.filter (fun l => l.loanStatus = "overdue")).length : Int) (loans.length : Int)
      else 0 }

/-- The nested `customer` object of a formatted loan (lines 522–527). -/
structure FormattedCustomer where
  _id : String
  fullName : String
  phoneNumber : String
  address : String
deriving DecidableEq

/-- A loan as reshaped for the frontend (lines 519–542). -/
structure FormattedLoan where
  id : Option String
  billNo : Option String
  customer : FormattedCustomer
  jewelType : String
  grossWeight : Int
  netWeight : Int
  finalLoanAmount : Int
  overallLoanAmount : Int
  interestRate : Int
  disbursementDate : Option Int
  dueDate : Option Int
  status : String
  loanStatus : String
  repaidAmount : Int
  balanceAmount : Option Int
  paymentProgress : Int
  daysOverdue : Int
deriving DecidableEq

/-- The per-loan reshaping (lines 519–542); `id` is `loan._id || loan.voucherId`. -/
def formatLoan (l : DerivedLoan) : FormattedLoan :=
  { id := jsOrStrO l.internalId l.voucherId
    billNo := l.billNo
    customer :=
      { _id := l.customerId, fullName := l.customerName
        phoneNumber := l.customerPhone, address := l.customerAddress }
    jewelType := l.jewelType
    grossWeight := l.grossWeight
    netWeight := l.netWeight
    finalLoanAmount := l.finalLoanAmount
    overallLoanAmount := l.overallLoanAmount
    interestRate := l.interestRate
    disbursementDate := l.disbursementDate
    dueDate := l.dueDate
    status := l.status
    loanStatus := l.loanStatus
    repaidAmount := l.repaidAmount
    balanceAmount := l.balanceAmount
    paymentProgress := l.paymentProgress
    daysOverdue := l.daysOverdue }

/-- The `pagination` block of the query response. -/
structure Pagination where
  currentPage : Nat
  totalPages : Nat
  totalItems : Nat
  itemsPerPage : Nat
deriving DecidableEq

/-- The modelled response of `getStockSummary` (the `jewelTypeSummary` and
`overallSummary` blocks, which no claim inspects, are omitted; the latter is
computed by the `StockSummary` model file, which is outside this embedding). -/
structure QueryResponse where
  success : Bool
  data : List FormattedLoan
  pagination : Pagination
  summary : FilteredStats
  dataSource : String
deriving DecidableEq

/-- The filter-paginate-summarize core of `getStockSummary` applied to the
current snapshot's loans (lines 424–567): `slice(startIndex, startIndex +
limit)` with `startIndex = (page - 1) * limit`. -/
def queryLoans (q : QueryParams) (loans : List DerivedLoan) : QueryResponse :=
  let filtered := applyFilters q loans
  let totalCount := filtered.length
  let startIndex := (q.page - 1) * q.limit
  let paginated := (filtered.drop startIndex).take q.limit
  { success := true
    data := paginated.map formatLoan
    pagination :=
      { currentPage := q.page
        totalPages := (totalCount + q.limit - 1) / q.limit
        totalItems := totalCount
        itemsPerPage := q.limit }
    summary := computeStats filtered
    dataSource := "stocksummary" }

/-- The loan list built by the lazy sync inside `getStockSummary`
(lines 313–372): vouchers first (their faults absorbed), then day-books. -/
def lazySyncLoans (vres : Except Unit (List Voucher)) (dayBooks : List DayBook)
    (today : Int) (addTwelveMonths : Int → Int) : List DerivedLoan :=
  let loans : List DerivedLoan :=
    match vres with
    | .error _ => []
    | .ok vs => if vs.length > 0 then vs.map (voucherToLoanLazy today) else []
  if loans.length = 0 then extractLoanDataFromDayBooks today addTwelveMonths dayBooks else loans

/-- The hard-coded degraded response returned when the lazy sync fails
completely (lines 388–418). -/
def emptyQueryResponse (limit : Nat) : QueryResponse :=
  { success := true
    data := []
    pagination := { currentPage := 1, totalPages := 0, totalItems := 0, itemsPerPage := limit }
    summary :=
      { totalLoans := 0, activeLoans := 0, overdueLoans := 0, closedLoans := 0
        totalActiveLoanAmount := 0, totalOverdueLoanAmount := 0, totalLoanAmount := 0
        overdueRate := 0 }
    dataSource := "empty" }

/-- Handler `getStockSummary` (lines 294–578).  `saveOk = false` models the save of
the lazily-built snapshot throwing (the `syncError` catch); reader faults are
already absorbed inside `lazySyncLoans`. -/
def getStockSummary (q : QueryParams) (store : List Snapshot)
    (vres : Except Unit (List Voucher)) (dayBooks : List DayBook)
    (today : Int) (addTwelveMonths : Int → Int) (saveOk : Bool) : QueryResponse :=
  match store.head? with
  | some snap => queryLoans q snap.loans
  | none =>
    if saveOk then queryLoans q (lazySyncLoans vres dayBooks today addTwelveMonths)
    else emptyQueryResponse q.limit

/-- The test `loan._id?.toString() === id || loan.voucherId?.toString() === id`. -/
def matchesLoanId (id : String) (l : DerivedLoan) : Bool :=
  l.internalId = some id || l.voucherId = some id

/-- The in-place mutation of `updateVoucherStatus` (lines 656–666): set both
status fields and, on `Closed`, force the settlement fields. -/
def applyStatusUpdate (now : Int) (status : String) (l : DerivedLoan) : DerivedLoan :=
  let l1 := { l with
    status := status
    loanStatus :=
      if status = "Closed" then "closed"
      else if status = "Overdue" then "overdue"
      else "active" }
  if status = "Closed" then
    { l1 with
      closedDate := some now
      repaidAmount := l1.overallLoanAmount
      balanceAmount := some 0
      paymentProgress := 100 }
  else l1

/-- Combined `findIndex` plus in-place update: rewrite the first loan matching the
predicate, returning the new list and the updated loan, or `none` when no
loan matches. -/
def updateFirstMatch (p : DerivedLoan → Bool) (f : DerivedLoan → DerivedLoan) :
    List DerivedLoan → Option (List DerivedLoan × DerivedLoan)
  | [] => none
  | l :: ls =>
    if p l then some (f l :: ls, f l)
    else
      match updateFirstMatch p f ls with
      | some (ls', u) => some (l :: ls', u)
      | none => none

/-- Outcome of `updateVoucherStatus`: 400 on an invalid status, 404 when the
snapshot or the loan is missing, otherwise the saved store and the updated
loan returned in the response body. -/
inductive StatusUpdateResult where
  | invalidStatus : StatusUpdateResult
  | summaryNotFound : StatusUpdateResult
  | loanNotFound : StatusUpdateResult
  | updated : List Snapshot → DerivedLoan → StatusUpdateResult
deriving DecidableEq

/-- Handler `updateVoucherStatus` (lines 622–685). -/
def updateVoucherStatus (store : List Snapshot) (id : String) (status : String)
    (now : Int) : StatusUpdateResult :=
  if ! ((["Active", "Partial", "Overdue", "Closed"] : List String).contains status) then .invalidStatus
  else
    match store with
    | [] => .summaryNotFound
    | snap :: rest =>
      match updateFirstMatch (matchesLoanId id) (applyStatusUpdate now status) snap.loans with
      | none => .loanNotFound
      | some (loans', u) =>
        .updated ({ snap with loans := loans', lastUpdated := now } :: rest) u

/-- The sweep condition (line 772):
`['active'].includes(loan.loanStatus) && new Date(loan.dueDate) < now`. -/
def loanNeedsSweep (now : Int) (l : DerivedLoan) : Bool :=
  l.loanStatus = "active" &&
    (match l.dueDate with
     | some d => decide (d < now)
     | none => false)

/-- The per-loan mutation of the overdue sweep (lines 771–778). -/
def sweepLoan (now : Int) (l : DerivedLoan) : DerivedLoan :=
  if loanNeedsSweep now l then
    { l with
      status := "Overdue"
      loanStatus := "overdue"
      daysOverdue := ceilDiv (now - l.dueDate.getD 0) dayMs }
  else l

/-- Outcome of `updateOverdueStatus`: 404 when no snapshot exists, otherwise
the (possibly unchanged) store and the number of loans transitioned. -/
inductive SweepResult where
  | summaryNotFound : SweepResult
  | swept : List Snapshot → Nat → SweepResult
deriving DecidableEq

/-- Handler `updateOverdueStatus` (lines 756–799): flip every active, past-due loan
to overdue and save only when at least one loan changed. -/
def updateOverdueStatus (store : List Snapshot) (now : Int) : SweepResult :=
  match store with
  | [] => .summaryNotFound
  | snap :: rest =>
    let newLoans := snap.loans.map (sweepLoan now)
    let modifiedCount := snap.loans.countP (loanNeedsSweep now)
    if modifiedCount > 0 then
      .swept ({ snap with loans := newLoans, lastUpdated := now } :: rest) modifiedCount
    else
      .swept store modifiedCount

/-- Spec-side overdue rule, transcribed from the specification:
`isOverdue = dueDate < now AND status != "Closed"`. -/
def specIsOverdue (now dueDate : Int) (status : String) : Bool :=
  decide (dueDate < now) && status ≠ "Closed"

/-- Spec-side day count: `daysOverdue = ceil((now - dueDate) / 1 day)` when
overdue, else `0`. -/
def specDaysOverdue (now dueDate : Int) (status : String) : Int :=
  if specIsOverdue now dueDate status then ceilDiv (now - dueDate) dayMs else 0

/-- Spec-side `loanStatus` derivation, first match wins: overdue, then
`Closed`, then `Active`/`Partial`, else inactive. -/
def specLoanStatus (now dueDate : Int) (status : String) : String :=
  if specIsOverdue now dueDate status then "overdue"
  else if status = "Closed" then "closed"
  else if status = "Active" ∨ status = "Partial" then "active"
  else "inactive"

/-- Spec-side search predicate, transcribed from the specification: the
search string is a case-insensitive substring of the bill number, customer
name or customer id, or a case-sensitive substring of the phone number. -/
def specSearchMatches (search : String) (l : DerivedLoan) : Bool :=
  strIncludes (lowerStr (l.billNo.getD "")) (lowerStr search)
    || strIncludes (lowerStr l.customerName) (lowerStr search)
    || strIncludes (lowerStr l.customerId) (lowerStr search)
    || strIncludes l.customerPhone search

/-- Predicate form of the search stage: holds when the search filter is
absent, disabled, or matched. -/
def passesSearch (q : QueryParams) (l : DerivedLoan) : Bool :=
  match q.search with
  | some s => if s = "" then true else searchMatches s l
  | none => true

/-- Predicate form of the date stage. -/
def passesDate (q : QueryParams) (l : DerivedLoan) : Bool :=
  match q.dateFilter with
  | some d => dateMatches d l
  | none => true

/-- Predicate form of the status stage. -/
def passesStatus (q : QueryParams) (l : DerivedLoan) : Bool :=
  match q.statusFilter with
  | some sf =>
    if sf = "all" then true
    else if sf = "active" then l.loanStatus = "active"
    else if sf = "overdue" then l.loanStatus = "overdue"
    else if sf = "closed" then l.loanStatus = "closed"
    else true
  | none => true

/-- Predicate form of the jewel-type stage. -/
def passesJewel (q : QueryParams) (l : DerivedLoan) : Bool :=
  match q.jewelTypeFilter with
  | some jf =>
    if jf = "" then true
    else if jf = "all" then true
    else l.jewelType = jf
  | none => true

theorem toList_eq_nil_iff (s : String) : s.toList = [] ↔ s = "" := by
  constructor
  · intro h
    cases s with
    | mk data => simp [String.toList] at h; simp [h]
  · intro h; simp [h]

theorem strIncludes_empty_hay (sub : String) : strIncludes "" sub = sub.toList.isEmpty := rfl

theorem lowerStr_toList (s : String) : (lowerStr s).toList = s.toList.map Char.toLower := rfl

theorem lowerStr_empty_iff (s : String) : lowerStr s = "" ↔ s = "" := by
  constructor
  · intro h
    have h2 : (lowerStr s).toList = [] := by simp [h]
    rw [lowerStr_toList, List.map_eq_nil_iff] at h2
    exact (toList_eq_nil_iff s).mp h2
  · intro h; simp [h]; rfl

theorem foldl_append_eq {α β : Type} (f : α → List β) (l : List α) (acc : List β) :
    l.foldl (fun a x => a ++ f x) acc = acc ++ l.flatMap f := by
  induction l generalizing acc with
  | nil => simp
  | cons x xs ih => simp [List.foldl_cons, ih, List.flatMap_cons]

theorem extract_eq_flatMap (today : Int) (addTwelveMonths : Int → Int) (dayBooks : List DayBook) :
    extractLoanDataFromDayBooks today addTwelveMonths dayBooks
      = dayBooks.flatMap (dayBookLoans today addTwelveMonths) := by
  unfold extractLoanDataFromDayBooks
  simpa using foldl_append_eq (dayBookLoans today addTwelveMonths) dayBooks []

theorem mem_dayBookLoans_sourceType (today : Int) (addTwelveMonths : Int → Int)
    (db : DayBook) (l : DerivedLoan) (h : l ∈ dayBookLoans today addTwelveMonths db) :
    l.sourceType = "daybook" := by
  unfold dayBookLoans at h
  rcases List.mem_append.mp h with h1 | h1 <;>
    · rcases List.mem_map.mp h1 with ⟨t, _, ht⟩
      subst ht
      rfl

theorem mem_extract_sourceType (today : Int) (addTwelveMonths : Int → Int)
    (dayBooks : List DayBook) (l : DerivedLoan)
    (h : l ∈ extractLoanDataFromDayBooks today addTwelveMonths dayBooks) :
    l.sourceType = "daybook" := by
  rw [extract_eq_flatMap] at h
  rcases List.mem_flatMap.mp h with ⟨db, _, hdb⟩
  exact mem_dayBookLoans_sourceType today addTwelveMonths db l hdb

theorem mem_searchStage (q : QueryParams) (loans : List DerivedLoan) (l : DerivedLoan) :
    l ∈ searchStage q loans ↔ l ∈ loans ∧ passesSearch q l = true := by
  unfold searchStage passesSearch
  cases q.search with
  | none => simp
  | some s =>
    by_cases hs : s = "" <;> simp [hs, List.mem_filter]

theorem mem_dateStage (q : QueryParams) (loans : List DerivedLoan) (l : DerivedLoan) :
    l ∈ dateStage q loans ↔ l ∈ loans ∧ passesDate q l = true := by
  unfold dateStage passesDate
  cases q.dateFilter with
  | none => simp
  | some d => simp [List.mem_filter]

theorem mem_statusStage (q : QueryParams) (loans : List DerivedLoan) (l : DerivedLoan) :
    l ∈ statusStage q loans ↔ l ∈ loans ∧ passesStatus q l = true := by
  unfold statusStage passesStatus
  cases q.statusFilter with
  | none => simp
  | some sf =>
    by_cases h1 : sf = "all" <;> by_cases h2 : sf = "active" <;>
      by_cases h3 : sf = "overdue" <;> by_cases h4 : sf = "closed" <;>
        simp [h1, h2, h3, h4, List.mem_filter]

theorem mem_jewelStage (q : QueryParams) (loans : List DerivedLoan) (l : DerivedLoan) :
    l ∈ jewelStage q loans ↔ l ∈ loans ∧ passesJewel q l = true := by
  unfold jewelStage passesJewel
  cases q.jewelTypeFilter with
  | none => simp
  | some jf =>
    by_cases h0 : jf = "" <;> by_cases h : jf = "all" <;> simp [h0, h, List.mem_filter]

theorem mem_applyFilters (q : QueryParams) (loans : List DerivedLoan) (l : DerivedLoan) :
    l ∈ applyFilters q loans ↔
      l ∈ loans ∧ passesSearch q l = true ∧ passesDate q l = true
        ∧ passesStatus q l = true ∧ passesJewel q l = true := by
  unfold applyFilters
  rw [mem_jewelStage, mem_statusStage, mem_dateStage, mem_searchStage]
  tauto

theorem updateFirstMatch_eq_none (p : DerivedLoan → Bool) (f : DerivedLoan → DerivedLoan) :
    ∀ ls : List DerivedLoan, updateFirstMatch p f ls = none ↔ ∀ l ∈ ls, p l = false := by
  intro ls
  induction ls with
  | nil => simp [updateFirstMatch]
  | cons x xs ih =>
    constructor
    · intro h
      by_cases hx : p x
      · simp [updateFirstMatch, hx] at h
      · intro l hl
        rcases List.mem_cons.mp hl with rfl | hl2
        · simpa using hx
        · refine ih.mp ?_ l hl2
          simp only [updateFirstMatch, hx, if_false, Bool.false_eq_true] at h
          cases hm : updateFirstMatch p f xs with
          | none => rfl
          | some r => rw [hm] at h; cases r; simp at h
    · intro h
      have hx : p x = false := h x (List.mem_cons_self x xs)
      have hxs : updateFirstMatch p f xs = none :=
        ih.mpr (fun l hl => h l (List.mem_cons_of_mem x hl))
      simp [updateFirstMatch, hx, hxs]

theorem sweepLoan_not_needed (now : Int) (l : DerivedLoan)
    (h : loanNeedsSweep now l = false) : sweepLoan now l = l := by
  simp [sweepLoan, h]

theorem sweepLoan_not_active (now : Int) (l : DerivedLoan) :
    loanNeedsSweep now (sweepLoan now l) = false := by
  by_cases h : loanNeedsSweep now l
  · simp only [sweepLoan, h, if_true]
    simp [loanNeedsSweep]
  · simp only [Bool.not_eq_true] at h
    rw [sweepLoan_not_needed now l h]
    exact h

theorem countP_sweep_zero (now : Int) (loans : List DerivedLoan) :
    (loans.map (sweepLoan now)).countP (loanNeedsSweep now) = 0 := by
  rw [List.countP_eq_zero]
  intro a ha
  rcases List.mem_map.mp ha with ⟨l, _, hl⟩
  subst hl
  simp [sweepLoan_not_active]

theorem lowerStr_empty : lowerStr "" = "" := by
  rw [lowerStr_empty_iff]

theorem strIncludes_empty_of_ne (sub : String) (hsub : sub.toList ≠ []) :
    strIncludes "" sub = false := by
  rw [strIncludes_empty_hay]
  simpa [List.isEmpty_iff] using hsub

theorem strIncludes_guard (g sub : String) (hsub : sub.toList ≠ []) :
    (decide (g ≠ "") && strIncludes g sub) = strIncludes g sub := by
  by_cases hg : g = ""
  · subst hg
    simp [strIncludes_empty_of_ne sub hsub]
  · simp [hg]

theorem strIncludes_lower_guard (g sub : String) (hsub : sub.toList ≠ []) :
    (decide (g ≠ "") && strIncludes (lowerStr g) sub) = strIncludes (lowerStr g) sub := by
  by_cases hg : g = ""
  · subst hg
    simp [lowerStr_empty, strIncludes_empty_of_ne sub hsub]
  · simp [hg]

theorem strIncludes_jsTruthy_guard (b : Option String) (sub : String) (hsub : sub.toList ≠ []) :
    (jsTruthyS b && strIncludes (lowerStr (b.getD "")) sub)
      = strIncludes (lowerStr (b.getD "")) sub := by
  cases b with
  | none => simp [jsTruthyS, lowerStr_empty, strIncludes_empty_of_ne sub hsub]
  | some t =>
    by_cases ht : t = ""
    · subst ht
      simp [jsTruthyS, lowerStr_empty, strIncludes_empty_of_ne sub hsub]
    · simp [jsTruthyS, ht]

theorem searchMatches_eq_spec (s : String) (hs : s ≠ "") (l : DerivedLoan) :
    searchMatches s l = specSearchMatches s l := by
  have hsub : (lowerStr s).toList ≠ [] := by
    intro hc
    exact hs ((lowerStr_empty_iff s).mp ((toList_eq_nil_iff (lowerStr s)).mp hc))
  have hraw : s.toList ≠ [] := fun hc => hs ((toList_eq_nil_iff s).mp hc)
  unfold searchMatches specSearchMatches
  dsimp only
  rw [strIncludes_jsTruthy_guard _ _ hsub, strIncludes_lower_guard _ _ hsub,
      strIncludes_lower_guard _ _ hsub, strIncludes_guard _ _ hraw]

/-- A concrete voucher used by witness instantiations. -/
def sampleVoucher : Voucher :=
  { _id := "v1", billNo := some "B100", customer := none, customerId := some "C1"
    customerName := some "Asha", customerPhone := some "12345", jewelType := some "gold"
    grossWeight := some 10, netWeight := some 9, loanAmount := some 1000
    finalLoanAmount := some 1000, interestRate := some 2, interestAmount := some 20
    overallLoanAmount := some 1020, repaidAmount := some 0, balanceAmount := some 500
    paymentProgress := some 50, monthsPaid := some 1, totalInterestPaid := some 20
    disbursementDate := some 0, dueDate := some 100, lastPaymentDate := none
    closedDate := none, status := "Active", jewelryItems := some [] }

/-- A concrete qualifying day-book transaction used by witness instantiations. -/
def sampleTx : Tx :=
  { voucherId := some "v1", billNo := some "B100", customerId := some "C1"
    customerName := some "Asha", jewelType := some "gold", netWeight := some 9
    amount := some 1000, interestRate := some 2, createdAt := some 0 }

/-- A concrete day-book document used by witness instantiations. -/
def sampleDayBook : DayBook :=
  { _id := "d1", date := 5, loansDisbursed := some [sampleTx], closedLoans := some [sampleTx] }

/-- A concrete snapshot loan (active, one day past due at time 0) used by
witness instantiations. -/
def sampleActiveLoan : DerivedLoan :=
  { billNo := some "B1", customerId := "C1", customerName := "Asha", customerPhone := "123"
    customerAddress := "X", jewelType := "gold", grossWeight := 1, netWeight := 1
    loanAmount := 100, finalLoanAmount := 100, interestRate := 2, interestAmount := 2
    overallLoanAmount := 102, disbursementDate := some 0, dueDate := some (0 - dayMs)
    status := "Active", loanStatus := "active", repaidAmount := 0, balanceAmount := some 102
    paymentProgress := 0, daysOverdue := 0, voucherId := some "v1", sourceType := "voucher"
    sourceId := "v1" }

/-- A concrete snapshot used by witness instantiations. -/
def sampleSnapshot : Snapshot :=
  { loans := [sampleActiveLoan], lastSyncedAt := 0, syncStatus := "synced"
    dataVersion := "1.0", lastUpdated := 0 }

/-- C1: `sync()` tries the Voucher Reader first and falls through to the
LedgerEntry Reader on a fault or an empty voucher result; it deletes every
existing snapshot and persists exactly one new snapshot (an empty loan list
included); the snapshot never mixes sources — non-empty vouchers give
uniformly `sourceType = "voucher"`, otherwise the loans are uniformly
`sourceType = "daybook"`. -/
theorem sync_replaces_snapshot_and_never_mixes_sources
    (vres : Except Unit (List Voucher)) (dayBooks : List DayBook)
    (today : Int) (addTwelveMonths : Int → Int) (store : List Snapshot) :
    (createOrUpdateStockSummary vres dayBooks today addTwelveMonths store).1
        = [{ loans := syncedLoans vres dayBooks today addTwelveMonths
             lastSyncedAt := today, syncStatus := "synced", dataVersion := "1.0"
             lastUpdated := today }]
      ∧ (∀ vs, vres = Except.ok vs → vs ≠ [] →
          ∀ l ∈ syncedLoans vres dayBooks today addTwelveMonths, l.sourceType = "voucher")
      ∧ ((vres = Except.error () ∨ vres = Except.ok []) →
          syncedLoans vres dayBooks today addTwelveMonths
            = extractLoanDataFromDayBooks today addTwelveMonths dayBooks
          ∧ ∀ l ∈ syncedLoans vres dayBooks today addTwelveMonths, l.sourceType = "daybook") := by
  refine ⟨rfl, ?_, ?_⟩
  · rintro vs rfl hne l hl
    have hlen : 0 < vs.length := List.length_pos.mpr hne
    have hne' : vs.length ≠ 0 := Nat.pos_iff_ne_zero.mp hlen
    unfold syncedLoans at hl
    dsimp only at hl
    rw [if_pos hlen] at hl
    rw [List.length_map] at hl
    rw [if_neg hne'] at hl
    rcases List.mem_map.mp hl with ⟨v, _, hv⟩
    subst hv
    rfl
  · intro hcase
    have hloans : syncedLoans vres dayBooks today addTwelveMonths
        = extractLoanDataFromDayBooks today addTwelveMonths dayBooks := by
      rcases hcase with h | h <;> subst h <;> simp [syncedLoans]
    refine ⟨hloans, ?_⟩
    intro l hl
    rw [hloans] at hl
    exact mem_extract_sourceType today addTwelveMonths dayBooks l hl

/-- Witness for C1: instantiates the sync theorem at a concrete non-empty
voucher read and discharges its hypotheses. -/
theorem sync_replaces_snapshot_and_never_mixes_sources_witness :
    (voucherToLoan 0 sampleVoucher).sourceType = "voucher" := by
  refine (sync_replaces_snapshot_and_never_mixes_sources
      (Except.ok [sampleVoucher]) [] 0 (fun x => x) []).2.1
      [sampleVoucher] rfl (by decide) _ ?_
  show voucherToLoan 0 sampleVoucher ∈ syncedLoans (Except.ok [sampleVoucher]) [] 0 (fun x => x)
  decide

/-- The C2 scenario voucher: status `Active`, due exactly one day before `now`. -/
def yesterdayVoucher (now : Int) : Voucher :=
  { sampleVoucher with dueDate := some (now - dayMs), status := "Active" }

/-- C2: for every voucher processed at sync time, overdue detection, the day
count and the `loanStatus` derivation follow the spec formulas, and the
scenario of a single `Active` voucher due yesterday yields `loanStatus =
"overdue"` with `daysOverdue = 1`. -/
theorem voucher_overdue_and_status_derivation
    (today : Int) (v : Voucher) (d : Int) (hd : v.dueDate = some d) :
    vIsOverdue today v = specIsOverdue today d v.status
    ∧ (voucherToLoan today v).daysOverdue = specDaysOverdue today d v.status
    ∧ (voucherToLoan today v).loanStatus = specLoanStatus today d v.status
    ∧ ((voucherToLoan today (yesterdayVoucher today)).loanStatus = "overdue"
        ∧ (voucherToLoan today (yesterdayVoucher today)).daysOverdue = 1) := by
  have hiso : vIsOverdue today v = specIsOverdue today d v.status := by
    simp [vIsOverdue, specIsOverdue, hd]
  have hysd : vIsOverdue today (yesterdayVoucher today) = true := by
    simp [vIsOverdue, yesterdayVoucher, sampleVoucher, dayMs]
  refine ⟨hiso, ?_, ?_, ?_, ?_⟩
  · show vDaysOverdue today v = specDaysOverdue today d v.status
    rw [vDaysOverdue, specDaysOverdue, hiso, hd]
    rfl
  · show vLoanStatus today v = specLoanStatus today d v.status
    rw [vLoanStatus, specLoanStatus, hiso]
  · show vLoanStatus today (yesterdayVoucher today) = "overdue"
    rw [vLoanStatus, hysd]
    rfl
  · show vDaysOverdue today (yesterdayVoucher today) = 1
    rw [vDaysOverdue, hysd]
    simp only [if_true, yesterdayVoucher]
    have harith : today - (Option.some (today - dayMs)).getD 0 = dayMs := by
      simp
    simp only [harith]
    decide

/-- Witness for C2 at `today = 10` and the scenario voucher. -/
theorem voucher_overdue_and_status_derivation_witness :
    vIsOverdue 10 (yesterdayVoucher 10) = specIsOverdue 10 (10 - dayMs) (yesterdayVoucher 10).status
    ∧ (voucherToLoan 10 (yesterdayVoucher 10)).daysOverdue
        = specDaysOverdue 10 (10 - dayMs) (yesterdayVoucher 10).status
    ∧ (voucherToLoan 10 (yesterdayVoucher 10)).loanStatus
        = specLoanStatus 10 (10 - dayMs) (yesterdayVoucher 10).status
    ∧ ((voucherToLoan 10 (yesterdayVoucher 10)).loanStatus = "overdue"
        ∧ (voucherToLoan 10 (yesterdayVoucher 10)).daysOverdue = 1) :=
  voucher_overdue_and_status_derivation 10 (yesterdayVoucher 10) (10 - dayMs) rfl

/-- C3: the LedgerEntry Reader emits exactly one loan per qualifying
transaction (those with both a voucher reference and a bill number; others
are skipped), the emitted due date is always the disbursement date plus 12
months, and `closedLoans` transactions are emitted `Closed` with
`repaidAmount = amount`, `balanceAmount = 0`, `paymentProgress = 100`
regardless of due date. -/
theorem extract_one_loan_per_qualifying_transaction
    (today : Int) (addTwelveMonths : Int → Int) (dayBooks : List DayBook) :
    extractLoanDataFromDayBooks today addTwelveMonths dayBooks
        = dayBooks.flatMap (fun db =>
            ((db.loansDisbursed.getD []).filter qualifiesTx).map (disbLoanOfTx today addTwelveMonths db)
            ++ ((db.closedLoans.getD []).filter qualifiesTx).map (closedLoanOfTx today addTwelveMonths db))
    ∧ (∀ l ∈ extractLoanDataFromDayBooks today addTwelveMonths dayBooks,
        ∃ db ∈ dayBooks, ∃ t, qualifiesTx t = true
          ∧ (l = disbLoanOfTx today addTwelveMonths db t
             ∨ l = closedLoanOfTx today addTwelveMonths db t))
    ∧ (∀ db : DayBook, ∀ t : Tx,
        (disbLoanOfTx today addTwelveMonths db t).disbursementDate = some (t.createdAt.getD db.date)
        ∧ (disbLoanOfTx today addTwelveMonths db t).dueDate
            = some (addTwelveMonths (t.createdAt.getD db.date))
        ∧ (closedLoanOfTx today addTwelveMonths db t).disbursementDate = some (t.createdAt.getD db.date)
        ∧ (closedLoanOfTx today addTwelveMonths db t).dueDate
            = some (addTwelveMonths (t.createdAt.getD db.date))
        ∧ (closedLoanOfTx today addTwelveMonths db t).status = "Closed"
        ∧ (closedLoanOfTx today addTwelveMonths db t).loanStatus = "closed"
        ∧ (closedLoanOfTx today addTwelveMonths db t).repaidAmount = jsOrNum t.amount 0
        ∧ (closedLoanOfTx today addTwelveMonths db t).balanceAmount = some 0
        ∧ (closedLoanOfTx today addTwelveMonths db t).paymentProgress = 100) := by
  refine ⟨?_, ?_, ?_⟩
  · rw [extract_eq_flatMap]
    rfl
  · intro l hl
    rw [extract_eq_flatMap] at hl
    rcases List.mem_flatMap.mp hl with ⟨db, hdb, hmem⟩
    unfold dayBookLoans at hmem
    rcases List.mem_append.mp hmem with h1 | h1
    · rcases List.mem_map.mp h1 with ⟨t, ht, rfl⟩
      exact ⟨db, hdb, t, (List.mem_filter.mp ht).2, Or.inl rfl⟩
    · rcases List.mem_map.mp h1 with ⟨t, ht, rfl⟩
      exact ⟨db, hdb, t, (List.mem_filter.mp ht).2, Or.inr rfl⟩
  · intro db t
    exact ⟨rfl, rfl, rfl, rfl, rfl, rfl, rfl, rfl, rfl⟩

/-- Witness for C3 at a concrete day-book and transaction. -/
theorem extract_one_loan_per_qualifying_transaction_witness :
    (closedLoanOfTx 0 (fun x => x) sampleDayBook sampleTx).status = "Closed"
    ∧ (closedLoanOfTx 0 (fun x => x) sampleDayBook sampleTx).paymentProgress = 100 := by
  have h := (extract_one_loan_per_qualifying_transaction 0 (fun x => x) [sampleDayBook]).2.2
      sampleDayBook sampleTx
  exact ⟨h.2.2.2.2.1, h.2.2.2.2.2.2.2.2⟩

/-- C10: every loan emitted by the LedgerEntry Reader (disbursed and closed
alike) has `grossWeight = netWeight`; both are populated from the
transaction's net weight (default 0) and the source's gross weight is never
read. -/
theorem daybook_gross_weight_equals_net_weight
    (today : Int) (addTwelveMonths : Int → Int) (dayBooks : List DayBook) :
    (∀ db t, (disbLoanOfTx today addTwelveMonths db t).grossWeight = jsOrNum t.netWeight 0
      ∧ (disbLoanOfTx today addTwelveMonths db t).netWeight = jsOrNum t.netWeight 0
      ∧ (closedLoanOfTx today addTwelveMonths db t).grossWeight = jsOrNum t.netWeight 0
      ∧ (closedLoanOfTx today addTwelveMonths db t).netWeight = jsOrNum t.netWeight 0)
    ∧ ∀ l ∈ extractLoanDataFromDayBooks today addTwelveMonths dayBooks,
        l.grossWeight = l.netWeight := by
  refine ⟨fun db t => ⟨rfl, rfl, rfl, rfl⟩, ?_⟩
  intro l hl
  rw [extract_eq_flatMap] at hl
  rcases List.mem_flatMap.mp hl with ⟨db, _, hmem⟩
  unfold dayBookLoans at hmem
  rcases List.mem_append.mp hmem with h1 | h1 <;>
    · rcases List.mem_map.mp h1 with ⟨t, _, rfl⟩
      rfl

/-- Witness for C10 at a concrete day-book extraction. -/
theorem daybook_gross_weight_equals_net_weight_witness :
    (disbLoanOfTx 0 (fun x => x) sampleDayBook sampleTx).grossWeight
      = (disbLoanOfTx 0 (fun x => x) sampleDayBook sampleTx).netWeight := by
  refine (daybook_gross_weight_equals_net_weight 0 (fun x => x) [sampleDayBook]).2 _ ?_
  decide

/-- C4: the query filters compose conjunctively — a loan is returned iff it
passes every supplied filter; the search predicate is a case-insensitive
substring match on bill number, customer name or customer id, or a
case-sensitive substring match on the phone number; `statusFilter = "all"`
(or absent) disables that filter, so the full set is returned. -/
theorem query_filters_conjunctive
    (q : QueryParams) (loans : List DerivedLoan) (l : DerivedLoan) :
    (l ∈ applyFilters q loans ↔
      l ∈ loans ∧ passesSearch q l = true ∧ passesDate q l = true
        ∧ passesStatus q l = true ∧ passesJewel q l = true)
    ∧ (∀ s, s ≠ "" → searchMatches s l = specSearchMatches s l)
    ∧ applyFilters { statusFilter := some "all" } loans = loans
    ∧ (queryLoans { statusFilter := some "all" } loans).pagination.totalItems = loans.length := by
  refine ⟨mem_applyFilters q loans l, fun s hs => searchMatches_eq_spec s hs l, rfl, rfl⟩

/-- Witness for C4 at a concrete loan and search string. -/
theorem query_filters_conjunctive_witness :
    searchMatches "b" sampleActiveLoan = specSearchMatches "b" sampleActiveLoan :=
  (query_filters_conjunctive {} [sampleActiveLoan] sampleActiveLoan).2.1 "b" (by decide)

/-- C5: pagination is 1-indexed with default limit 100, applied after
filtering at offset `(page - 1) * limit`; `totalItems` always equals the
filtered-set size and the returned page holds at most `limit` loans. -/
theorem query_pagination
    (q : QueryParams) (loans : List DerivedLoan) (h : 1 ≤ q.page) :
    (queryLoans q loans).pagination.totalItems = (applyFilters q loans).length
    ∧ (queryLoans q loans).data.length ≤ q.limit
    ∧ (queryLoans q loans).data
        = (((applyFilters q loans).drop ((q.page - 1) * q.limit)).take q.limit).map formatLoan
    ∧ (queryLoans q loans).pagination.itemsPerPage = q.limit
    ∧ ({} : QueryParams).limit = 100
    ∧ ({} : QueryParams).page = 1
    ∧ (∀ (snap : Snapshot) (rest : List Snapshot) (vres : Except Unit (List Voucher))
         (dayBooks : List DayBook) (today : Int) (addTwelveMonths : Int → Int) (saveOk : Bool),
         getStockSummary q (snap :: rest) vres dayBooks today addTwelveMonths saveOk
           = queryLoans q snap.loans) := by
  refine ⟨rfl, ?_, rfl, rfl, rfl, rfl, fun snap rest vres dayBooks today addTwelveMonths saveOk => rfl⟩
  show ((((applyFilters q loans).drop ((q.page - 1) * q.limit)).take q.limit).map formatLoan).length
      ≤ q.limit
  rw [List.length_map]
  exact List.length_take_le _ _

/-- Witness for C5 with the default query parameters. -/
theorem query_pagination_witness :
    (queryLoans {} [sampleActiveLoan]).data.length ≤ ({} : QueryParams).limit :=
  (query_pagination {} [sampleActiveLoan] (by decide)).2.1

/-- C6: `setStatus` rejects any status outside `{Active, Partial, Overdue,
Closed}`, fails with NotFound when no snapshot exists or no loan matches the
id (by internal id or voucher reference), otherwise sets `status`, derives
`loanStatus` by the three-way mapping (never `inactive`), and on transition
to `Closed` forces `closedDate = now`, `repaidAmount = overallLoanAmount`,
`balanceAmount = 0`, `paymentProgress = 100`. -/
theorem set_status_validation_and_closed_settlement
    (store : List Snapshot) (id status : String) (now : Int) :
    (status ∉ (["Active", "Partial", "Overdue", "Closed"] : List String) →
        updateVoucherStatus store id status now = StatusUpdateResult.invalidStatus)
    ∧ (store = [] → status ∈ (["Active", "Partial", "Overdue", "Closed"] : List String) →
        updateVoucherStatus store id status now = StatusUpdateResult.summaryNotFound)
    ∧ (∀ snap rest, store = snap :: rest →
        status ∈ (["Active", "Partial", "Overdue", "Closed"] : List String) →
        (∀ l ∈ snap.loans, matchesLoanId id l = false) →
        updateVoucherStatus store id status now = StatusUpdateResult.loanNotFound)
    ∧ (∀ snap rest loans' u, store = snap :: rest →
        status ∈ (["Active", "Partial", "Overdue", "Closed"] : List String) →
        updateFirstMatch (matchesLoanId id) (applyStatusUpdate now status) snap.loans
          = some (loans', u) →
        updateVoucherStatus store id status now
          = StatusUpdateResult.updated ({ snap with loans := loans', lastUpdated := now } :: rest) u)
    ∧ (∀ l : DerivedLoan,
        (applyStatusUpdate now status l).status = status
        ∧ (applyStatusUpdate now status l).loanStatus
            = (if status = "Closed" then "closed"
               else if status = "Overdue" then "overdue" else "active")
        ∧ (applyStatusUpdate now status l).loanStatus ≠ "inactive"
        ∧ (status = "Closed" →
            (applyStatusUpdate now status l).closedDate = some now
            ∧ (applyStatusUpdate now status l).repaidAmount = l.overallLoanAmount
            ∧ (applyStatusUpdate now status l).balanceAmount = some 0
            ∧ (applyStatusUpdate now status l).paymentProgress = 100)) := by
  refine ⟨?_, ?_, ?_, ?_, ?_⟩
  · intro hnot
    have hc : ((["Active", "Partial", "Overdue", "Closed"] : List String).contains status) = false := by
      simpa using hnot
    unfold updateVoucherStatus
    rw [hc]
    rfl
  · rintro rfl hmem
    have hc : ((["Active", "Partial", "Overdue", "Closed"] : List String).contains status) = true := by
      simpa using hmem
    unfold updateVoucherStatus
    rw [hc]
    rfl
  · rintro snap rest rfl hmem hall
    have hc : ((["Active", "Partial", "Overdue", "Closed"] : List String).contains status) = true := by
      simpa using hmem
    have hupf : updateFirstMatch (matchesLoanId id) (applyStatusUpdate now status) snap.loans
        = none := (updateFirstMatch_eq_none _ _ snap.loans).mpr hall
    unfold updateVoucherStatus
    rw [hc]
    show (match updateFirstMatch (matchesLoanId id) (applyStatusUpdate now status) snap.loans with
          | none => StatusUpdateResult.loanNotFound
          | some (loans', u) =>
            StatusUpdateResult.updated ({ snap with loans := loans', lastUpdated := now } :: rest) u)
        = StatusUpdateResult.loanNotFound
    rw [hupf]
  · rintro snap rest loans' u rfl hmem hupf
    have hc : ((["Active", "Partial", "Overdue", "Closed"] : List String).contains status) = true := by
      simpa using hmem
    unfold updateVoucherStatus
    rw [hc]
    show (match updateFirstMatch (matchesLoanId id) (applyStatusUpdate now status) snap.loans with
          | none => StatusUpdateResult.loanNotFound
          | some (loans2, u2) =>
            StatusUpdateResult.updated ({ snap with loans := loans2, lastUpdated := now } :: rest) u2)
        = StatusUpdateResult.updated ({ snap with loans := loans', lastUpdated := now } :: rest) u
    rw [hupf]
  · intro l
    have hst : (applyStatusUpdate now status l).status = status := by
      unfold applyStatusUpdate
      by_cases hcl : status = "Closed" <;> simp [hcl]
    have hls : (applyStatusUpdate now status l).loanStatus
        = (if status = "Closed" then "closed"
           else if status = "Overdue" then "overdue" else "active") := by
      unfold applyStatusUpdate
      by_cases hcl : status = "Closed" <;> simp [hcl]
    have hni : (applyStatusUpdate now status l).loanStatus ≠ "inactive" := by
      rw [hls]
      split_ifs <;> decide
    refine ⟨hst, hls, hni, ?_⟩
    intro hcl
    subst hcl
    exact ⟨rfl, rfl, rfl, rfl⟩

/-- Witness for C6: closing the sample loan through `updateVoucherStatus`. -/
theorem set_status_validation_and_closed_settlement_witness :
    updateVoucherStatus [sampleSnapshot] "v1" "Closed" 7
      = StatusUpdateResult.updated
          ({ sampleSnapshot with
             loans := [applyStatusUpdate 7 "Closed" sampleActiveLoan], lastUpdated := 7 } :: [])
          (applyStatusUpdate 7 "Closed" sampleActiveLoan) := by
  refine (set_status_validation_and_closed_settlement [sampleSnapshot] "v1" "Closed" 7).2.2.2.1
      sampleSnapshot [] _ _ rfl (by decide) ?_
  rfl

/-- C7: the overdue sweep modifies exactly the loans with `loanStatus =
"active"` and a past due date — flipping `status`, `loanStatus` and
recomputing `daysOverdue` — leaves every other loan untouched, persists only
when at least one loan changed, returns the transition count, and an
immediate re-run returns `modifiedCount = 0`. -/
theorem sweep_overdue_exact_and_idempotent
    (snap : Snapshot) (rest : List Snapshot) (now : Int) (s' : List Snapshot) (c : Nat)
    (h : updateOverdueStatus (snap :: rest) now = SweepResult.swept s' c) :
    c = snap.loans.countP (loanNeedsSweep now)
    ∧ (c = 0 → s' = snap :: rest)
    ∧ (0 < c → s' = { snap with loans := snap.loans.map (sweepLoan now), lastUpdated := now } :: rest)
    ∧ (∀ l, loanNeedsSweep now l = false → sweepLoan now l = l)
    ∧ (∀ l, loanNeedsSweep now l = true → sweepLoan now l
        = { l with status := "Overdue", loanStatus := "overdue"
                   daysOverdue := ceilDiv (now - l.dueDate.getD 0) dayMs })
    ∧ updateOverdueStatus s' now = SweepResult.swept s' 0 := by
  unfold updateOverdueStatus at h
  dsimp only at h
  by_cases hc : 0 < snap.loans.countP (loanNeedsSweep now)
  · rw [if_pos hc] at h
    injection h with h1 h2
    subst h1
    subst h2
    refine ⟨rfl, ?_, fun _ => rfl, fun l hl => sweepLoan_not_needed now l hl, ?_, ?_⟩
    · intro h0
      exact absurd (h0 ▸ hc) (by simp)
    · intro l hl
      simp [sweepLoan, hl]
    · show updateOverdueStatus
          ({ snap with loans := snap.loans.map (sweepLoan now), lastUpdated := now } :: rest) now
        = SweepResult.swept
          ({ snap with loans := snap.loans.map (sweepLoan now), lastUpdated := now } :: rest) 0
      unfold updateOverdueStatus
      dsimp only
      rw [countP_sweep_zero]
      rfl
  · rw [if_neg hc] at h
    have h0 : snap.loans.countP (loanNeedsSweep now) = 0 := Nat.eq_zero_of_not_pos hc
    injection h with h1 h2
    subst h1
    subst h2
    refine ⟨rfl, fun _ => rfl, fun hpos => absurd hpos hc, fun l hl => sweepLoan_not_needed now l hl, ?_, ?_⟩
    · intro l hl
      simp [sweepLoan, hl]
    · show updateOverdueStatus (snap :: rest) now = SweepResult.swept (snap :: rest) 0
      unfold updateOverdueStatus
      dsimp only
      rw [h0]
      rfl

/-- Witness for C7: sweeping the sample snapshot at time 0 transitions its
single past-due active loan. -/
theorem sweep_overdue_exact_and_idempotent_witness :
    (1 : Nat) = sampleSnapshot.loans.countP (loanNeedsSweep 0) :=
  (sweep_overdue_exact_and_idempotent sampleSnapshot [] 0
      [{ sampleSnapshot with loans := sampleSnapshot.loans.map (sweepLoan 0), lastUpdated := 0 }] 1
      (by rfl)).1

/-- C8: with no snapshot present, `query()` lazily syncs (vouchers first,
then day-books); when that sync fails completely it returns the explicit
successful empty result (empty data, zero counts, `overdueRate = 0`) instead
of propagating an error. -/
theorem query_lazy_sync_and_degraded_empty
    (q : QueryParams) (vres : Except Unit (List Voucher)) (dayBooks : List DayBook)
    (today : Int) (addTwelveMonths : Int → Int) :
    getStockSummary q [] vres dayBooks today addTwelveMonths false = emptyQueryResponse q.limit
    ∧ (emptyQueryResponse q.limit).success = true
    ∧ (emptyQueryResponse q.limit).data = []
    ∧ (emptyQueryResponse q.limit).pagination.totalItems = 0
    ∧ (emptyQueryResponse q.limit).summary.totalLoans = 0
    ∧ (emptyQueryResponse q.limit).summary.overdueRate = 0
    ∧ getStockSummary q [] vres dayBooks today addTwelveMonths true
        = queryLoans q (lazySyncLoans vres dayBooks today addTwelveMonths)
    ∧ (∀ vs, vres = Except.ok vs → vs ≠ [] →
        lazySyncLoans vres dayBooks today addTwelveMonths = vs.map (voucherToLoanLazy today))
    ∧ ((vres = Except.error () ∨ vres = Except.ok []) →
        lazySyncLoans vres dayBooks today addTwelveMonths
          = extractLoanDataFromDayBooks today addTwelveMonths dayBooks) := by
  refine ⟨rfl, rfl, rfl, rfl, rfl, rfl, rfl, ?_, ?_⟩
  · rintro vs rfl hne
    have hlen : 0 < vs.length := List.length_pos.mpr hne
    have hne' : vs.length ≠ 0 := Nat.pos_iff_ne_zero.mp hlen
    unfold lazySyncLoans
    dsimp only
    rw [if_pos hlen]
    rw [List.length_map]
    rw [if_neg hne']
  · intro hcase
    rcases hcase with h | h <;> subst h <;> simp [lazySyncLoans]

/-- Witness for C8: a voucher fault with no snapshot falls through to the
day-book extraction. -/
theorem query_lazy_sync_and_degraded_empty_witness :
    lazySyncLoans (Except.error ()) [sampleDayBook] 0 (fun x => x)
      = extractLoanDataFromDayBooks 0 (fun x => x) [sampleDayBook] :=
  (query_lazy_sync_and_degraded_empty {} (Except.error ()) [sampleDayBook] 0
      (fun x => x)).2.2.2.2.2.2.2.2 (Or.inl rfl)

/-- The C9 counterexample voucher: `balanceAmount` absent while
`overallLoanAmount = 5000`. -/
def noBalanceVoucher : Voucher :=
  { sampleVoucher with balanceAmount := none, overallLoanAmount := some 5000 }

/-- Counterexample to C9 as stated: a voucher with no `balanceAmount` maps to
a loan whose `balanceAmount` is the voucher's `overallLoanAmount` (5000),
not 0 — line 222 reads `voucher.balanceAmount || voucher.overallLoanAmount`. -/
theorem voucher_balance_default_counterexample :
    noBalanceVoucher.balanceAmount = none
    ∧ (voucherToLoan 0 noBalanceVoucher).balanceAmount = some 5000
    ∧ (voucherToLoan 0 noBalanceVoucher).balanceAmount ≠ some 0 :=
  ⟨rfl, rfl, by decide⟩

/-- C9 amended: every listed financial field except `balanceAmount` defaults
to 0 when absent in the source voucher; `balanceAmount` instead falls back to
the voucher's raw `overallLoanAmount` (in both the sync and the lazy-sync
voucher mappings). -/
theorem voucher_financial_defaults_amended (today : Int) (v : Voucher) :
    (v.loanAmount = none → (voucherToLoan today v).loanAmount = 0)
    ∧ (v.finalLoanAmount = none → (voucherToLoan today v).finalLoanAmount = 0)
    ∧ (v.overallLoanAmount = none → (voucherToLoan today v).overallLoanAmount = 0)
    ∧ (v.interestRate = none → (voucherToLoan today v).interestRate = 0)
    ∧ (v.interestAmount = none → (voucherToLoan today v).interestAmount = 0)
    ∧ (v.repaidAmount = none → (voucherToLoan today v).repaidAmount = 0)
    ∧ (v.paymentProgress = none → (voucherToLoan today v).paymentProgress = 0)
    ∧ (v.totalInterestPaid = none → (voucherToLoan today v).totalInterestPaid = some 0)
    ∧ (v.monthsPaid = none → (voucherToLoan today v).monthsPaid = some 0)
    ∧ (v.balanceAmount = none → (voucherToLoan today v).balanceAmount = v.overallLoanAmount)
    ∧ (v.balanceAmount = none → (voucherToLoanLazy today v).balanceAmount = v.overallLoanAmount) := by
  refine ⟨?_, ?_, ?_, ?_, ?_, ?_, ?_, ?_, ?_, ?_, ?_⟩ <;> intro h <;>
    simp [voucherToLoan, voucherToLoanLazy, jsOrNum, jsOrNumO, h]

/-- Witness for the amended C9 at the counterexample voucher. -/
theorem voucher_financial_defaults_amended_witness :
    (voucherToLoan 0 noBalanceVoucher).balanceAmount = noBalanceVoucher.overallLoanAmount :=
  (voucher_financial_defaults_amended 0 noBalanceVoucher).2.2.2.2.2.2.2.2.2.1 rfl
